import Mathlib

/-!
Shallow embedding of `generate_click_flow_with_screens.py`.

The script converts a Figma-style document tree into an ordered list of
clickable UI actions.  We embed the five core pieces: the tree indexer
(`build_node_maps`), the ancestor resolver (`find_frame_ancestor`, modelled
with explicit fuel because the Python `while` loop has no cycle guard), the
clickable extractor (`extract_clickables`), the ordering engine
(`sort_clickables`), and the screenshot fetch loop of `main` (`run_fetch`,
with the network calls abstracted as explicit functions and call counters).
Numbers that Python holds as floats are modelled as rationals; Python's
`round` (banker's rounding) is `pyRound`.  Python dictionaries whose only
observed operations are `get`/`[]=` are modelled as functions into `Option`.
-/

namespace ClickFlow

/-- Python truthiness of an optional string: `None` and `""` are falsy. -/
def strTruthy : Option String → Bool
  | none => false
  | some s => s ≠ ""

/-- Python `str.strip()`: drop whitespace from both ends. -/
def strip (s : String) : String :=
  String.mk (((s.toList.dropWhile Char.isWhitespace).reverse.dropWhile
    Char.isWhitespace).reverse)

/-- Python `str.replace(" ", "_")`: the pattern is a single character, so this
is a character-wise map. -/
def replace_space (s : String) : String :=
  String.mk (s.toList.map fun c => if c = ' ' then '_' else c)

/-- Python `os.path.basename` on a (non-`None`) string path: the suffix after
the last slash. -/
def basename (s : String) : String :=
  String.mk ((s.toList.reverse.takeWhile (fun c => c ≠ '/')).reverse)

/-- Python `round` on an exact rational: round half to even. -/
def pyRound (q : ℚ) : ℤ :=
  if q - ⌊q⌋ < 1/2 then ⌊q⌋
  else if 1/2 < q - ⌊q⌋ then ⌊q⌋ + 1
  else if ⌊q⌋ % 2 = 0 then ⌊q⌋ else ⌊q⌋ + 1

/-- The JSON object `absoluteBoundingBox`. -/
structure Box where
  x : ℚ
  y : ℚ
  width : ℚ
  height : ℚ
deriving DecidableEq

/-- One entry of a node's `prototypeInteractions` list; `type` and `target`
are read with `.get`, so both are optional. -/
structure Interaction where
  type : Option String
  target : Option String
deriving DecidableEq

/-- A document node.  Fields read with `.get` (or guarded by `in`) are
`Option`s; `children` defaults to `[]` when absent. -/
inductive Node where
  | mk (id : Option String) (name : Option String) (type : Option String)
      (absoluteBoundingBox : Option Box)
      (prototypeInteractions : Option (List Interaction))
      (transitionNodeID : Option String)
      (children : List Node)

def Node.id : Node → Option String
  | .mk i _ _ _ _ _ _ => i

def Node.name : Node → Option String
  | .mk _ n _ _ _ _ _ => n

def Node.type : Node → Option String
  | .mk _ _ t _ _ _ _ => t

def Node.absoluteBoundingBox : Node → Option Box
  | .mk _ _ _ b _ _ _ => b

def Node.prototypeInteractions : Node → Option (List Interaction)
  | .mk _ _ _ _ p _ _ => p

def Node.transitionNodeID : Node → Option String
  | .mk _ _ _ _ _ t _ => t

def Node.children : Node → List Node
  | .mk _ _ _ _ _ _ c => c

/-- A Python dict observed only through `get` and item assignment. -/
def Dict (α : Type) := String → Option α

/-- Item assignment `m[k] = v`. -/
def upd {α : Type} (m : Dict α) (k : String) (v : α) : Dict α :=
  fun q => if q = k then some v else m q

/-- The three index maps built together by `build_node_maps`.  Values of
`parent_map` are themselves optional ids (the root stores `None`). -/
structure Maps where
  name_map : Dict String
  parent_map : Dict (Option String)
  node_lookup : Dict Node

/-- The empty starting maps of `main`. -/
def maps0 : Maps :=
  { name_map := fun _ => none
    parent_map := fun _ => none
    node_lookup := fun _ => none }

/-- The body of `build_node_maps` run on one node: if the node's id is
truthy, record name (default `"Unnamed"`), parent id and the node itself. -/
def insert_node (n : Node) (parent : Option Node) (m : Maps) : Maps :=
  match n.id with
  | some i =>
    if i ≠ "" then
      { name_map := upd m.name_map i (n.name.getD "Unnamed")
        parent_map := upd m.parent_map i (parent.bind Node.id)
        node_lookup := upd m.node_lookup i n }
    else m
  | none => m

mutual

/-- `build_node_maps(node, ..., parent)`: pre-order traversal threading the
three maps. -/
def build_node_maps : Node → Option Node → Maps → Maps
  | n@(.mk _ _ _ _ _ _ children), parent, m =>
    build_node_maps_list children (some n) (insert_node n parent m)

/-- The `for child in node.get("children", [])` loop of `build_node_maps`. -/
def build_node_maps_list : List Node → Option Node → Maps → Maps
  | [], _, m => m
  | c :: cs, p, m => build_node_maps_list cs p (build_node_maps c p m)

end

/-- The loop condition of `find_frame_ancestor`: the current node has type
`"FRAME"` and carries a bounding box. -/
def isFrameWithBox (n : Node) : Bool :=
  n.type == some "FRAME" && n.absoluteBoundingBox.isSome

/-- One step of the ancestor walk: `parent_id = parent_map.get(current_id)`
followed by `node_lookup.get(parent_id) if parent_id else None` (both `None`
and `""` are falsy). -/
def step_current (pm : Dict (Option String)) (nl : Dict Node) (cur : Node) :
    Option Node :=
  let parent_id : Option String :=
    match cur.id with
    | some i => (pm i).getD none
    | none => none
  match parent_id with
  | some p => if p = "" then none else nl p
  | none => none

/-- The `while current:` loop of `find_frame_ancestor`, with explicit fuel:
`none` means the loop did not finish within `fuel` iterations, `some r` means
it returned `r` (the found frame, or `None`). -/
def find_frame_ancestor_fuel (pm : Dict (Option String)) (nl : Dict Node) :
    Nat → Option Node → Option (Option Node)
  | 0, _ => none
  | _ + 1, none => some none
  | fuel + 1, some cur =>
    if isFrameWithBox cur then some (some cur)
    else find_frame_ancestor_fuel pm nl fuel (step_current pm nl cur)

/-- Integer tap coordinates. -/
structure TapPos where
  x : ℤ
  y : ℤ
deriving DecidableEq

/-- One extracted clickable record (the dict literal of
`extract_clickables`); `screenshot` starts as `None`. -/
structure Clickable where
  name : String
  from_screen : String
  tap_position : TapPos
  navigates_to : String
  interaction_type : String
  node_id : Option String
  element_y : ℚ
  screenshot : Option String
deriving DecidableEq

/-- The dict literal appended by `extract_clickables`, shared by the
descriptor branch (which passes the descriptor's own type, default
`"ON_CLICK"`) and the legacy branch (which always passes `"ON_CLICK"`). -/
def make_clickable (node : Node) (box : Box) (from_screen : String)
    (pos : TapPos) (target itype : String) : Clickable :=
  { name := node.name.getD "Unnamed"
    from_screen := from_screen
    tap_position := pos
    navigates_to := target
    interaction_type := itype
    node_id := node.id
    element_y := box.y
    screenshot := none }

/-- The per-node part of `extract_clickables` (after the recursion over
children): qualification test, coordinates, frame resolution and record
generation.  Result `none` means the ancestor walk ran out of fuel, i.e. the
Python code would not have terminated within that bound. -/
def node_records (pm : Dict (Option String)) (nl : Dict Node) (fuel : Nat)
    (node : Node) : Option (List Clickable) :=
  match node.absoluteBoundingBox,
      node.prototypeInteractions.isSome || node.transitionNodeID.isSome with
  | some box, true =>
    let mid_x : ℚ := box.x + box.width / 2
    let mid_y : ℚ := box.y + box.height / 2
    match find_frame_ancestor_fuel pm nl fuel (some node) with
    | none => none
    | some frameOpt =>
      let from_screen : String :=
        match frameOpt with
        | some frame => frame.name.getD "Unknown"
        | none => "Unknown"
      let tap : ℚ × ℚ :=
        match frameOpt with
        | some frame =>
          match frame.absoluteBoundingBox with
          | some fb => (mid_x - fb.x, mid_y - fb.y)
          | none => (mid_x, mid_y)
        | none => (mid_x, mid_y)
      let pos : TapPos := ⟨pyRound tap.1, pyRound tap.2⟩
      match node.prototypeInteractions with
      | some interactions =>
        some (interactions.filterMap fun i =>
          match i.target with
          | some t =>
            if t ≠ "" then
              some (make_clickable node box from_screen pos t (i.type.getD "ON_CLICK"))
            else none
          | none => none)
      | none =>
        match node.transitionNodeID with
        | some t => some [make_clickable node box from_screen pos t "ON_CLICK"]
        | none => some []
  | _, _ => some []

mutual

/-- `extract_clickables`: post-order traversal appending each node's records
after those of its children. -/
def extract_clickables (pm : Dict (Option String)) (nl : Dict Node)
    (fuel : Nat) : Node → Option (List Clickable)
  | n@(.mk _ _ _ _ _ _ children) =>
    match extract_clickables_list pm nl fuel children with
    | none => none
    | some childRecs =>
      match node_records pm nl fuel n with
      | none => none
      | some own => some (childRecs ++ own)

/-- The `for child in node.get("children", [])` loop of
`extract_clickables`. -/
def extract_clickables_list (pm : Dict (Option String)) (nl : Dict Node)
    (fuel : Nat) : List Node → Option (List Clickable)
  | [] => some []
  | c :: cs =>
    match extract_clickables pm nl fuel c with
    | none => none
    | some rs =>
      match extract_clickables_list pm nl fuel cs with
      | none => none
      | some rest => some (rs ++ rest)

end

/-- The literal dict `target_order_preference = {"3": 1, "2": 2}`. -/
def target_order_preference (s : String) : Option Nat :=
  if s = "3" then some 1 else if s = "2" then some 2 else none

/-- The `sort_key` closure of `sort_clickables`; the Python keys are the
tuples `(0, 0)`, `(1, rank)` and `(2, element_y)`, compared
lexicographically with numeric second components. -/
def sort_key (name_map : Dict String) (start_screen : String)
    (click : Clickable) : Nat × ℚ :=
  let target_name := strip ((name_map click.navigates_to).getD "Unknown")
  if click.from_screen = start_screen then (0, 0)
  else
    match target_order_preference target_name with
    | some rank => (1, (rank : ℚ))
    | none => (2, click.element_y)

/-- Lexicographic comparison of two sort keys, as Python compares the
tuples. -/
def keyLe (a b : Nat × ℚ) : Bool :=
  decide (a.1 < b.1) || (decide (a.1 = b.1) && decide (a.2 ≤ b.2))

/-- The total preorder on records induced by their sort keys. -/
def click_le (name_map : Dict String) (start_screen : String)
    (a b : Clickable) : Prop :=
  keyLe (sort_key name_map start_screen a) (sort_key name_map start_screen b) = true

instance (name_map : Dict String) (start_screen : String) :
    DecidableRel (click_le name_map start_screen) :=
  fun _ _ => instDecidableEqBool _ _

/-- `sorted(clickables, key=sort_key)`: Python's `sorted` is specified as a
stable sort by key, and a stable sort under a fixed total preorder has a
unique output, so we embed it as the stable `List.insertionSort` under the
key preorder. -/
def sort_clickables (clickables : List Clickable) (name_map : Dict String)
    (start_screen : String) : List Clickable :=
  List.insertionSort (click_le name_map start_screen) clickables

/-- The name sanitization shared by the fetch loop and the summary:
`name_map.get(target_id, "Target").strip().replace(" ", "_")`. -/
def sanitized_target_name (name_map : Dict String) (target_id : String) :
    String :=
  replace_space (strip ((name_map target_id).getD "Target"))

/-- One line of `generate_summary` once the image filename is known. -/
def summary_line (idx : Nat) (pos : TapPos) (img : String) : String :=
  let x := pos.x
  let y := pos.y
  s!"{idx}. Click_COORD, {x}, {y}, CHECK, {img}"

/-- The loop of `generate_summary` with its 1-based index.  Every record
carries the `screenshot` key (it is set at creation), so
`item.get("screenshot", fallback)` returns the stored value and the fallback
expression is dead; when the stored value is `None`,
`os.path.basename(None)` raises `TypeError`, modelled as result `none`. -/
def generate_summary_go (name_map : Dict String) :
    Nat → List Clickable → Option (List String)
  | _, [] => some []
  | idx, item :: rest =>
    match item.screenshot with
    | none => none
    | some p =>
      match generate_summary_go name_map (idx + 1) rest with
      | none => none
      | some lines => some (summary_line idx item.tap_position (basename p) :: lines)

/-- `generate_summary(clickables, name_map)`; `none` models the run raising
`TypeError`. -/
def generate_summary (clickables : List Clickable) (name_map : Dict String) :
    Option (List String) :=
  generate_summary_go name_map 1 clickables

/-- The two network collaborators of the fetch phase, as deterministic
functions: `render` is `get_screenshot_url` (it may raise, or return the
optional URL from the `images` map), `download` is `requests.get(url).content`
(it may raise, or return the bytes, represented as a string token). -/
structure FetchEnv where
  render : String → Except Unit (Option String)
  download : String → Except Unit String

/-- State threaded through the fetch loop of `main`: the run-scoped
`downloaded` cache, the file system (last bytes written per path), and call
counters per target id for the two network operations. -/
structure FetchState where
  downloaded : Dict String
  files : Dict String
  render_calls : String → Nat
  download_calls : String → Nat

/-- Increment a per-id counter. -/
def bump (f : String → Nat) (k : String) : String → Nat :=
  fun q => if q = k then f q + 1 else f q

/-- The initial fetch state: empty cache, no files, no calls. -/
def fetch_state0 : FetchState :=
  { downloaded := fun _ => none
    files := fun _ => none
    render_calls := fun _ => 0
    download_calls := fun _ => 0 }

/-- The body of the `for item in ordered` loop of `main`: cache lookup,
otherwise render + `download_image` inside `try/except` (a caught failure
leaves the record and the cache untouched).  `download_image` returns
`False` without downloading when the URL is falsy (`None` or `""`). -/
def fetch_step (env : FetchEnv) (name_map : Dict String) (st : FetchState)
    (item : Clickable) : FetchState × Clickable :=
  let target_id := item.navigates_to
  match st.downloaded target_id with
  | some p => (st, { item with screenshot := some p })
  | none =>
    let screen_name := sanitized_target_name name_map target_id
    let file_path := "screenshots/" ++ screen_name ++ ".png"
    let st1 := { st with render_calls := bump st.render_calls target_id }
    match env.render target_id with
    | .error _ => (st1, item)
    | .ok url =>
      match url with
      | none => (st1, item)
      | some u =>
        if u = "" then (st1, item)
        else
          let st2 := { st1 with download_calls := bump st1.download_calls target_id }
          match env.download u with
          | .error _ => (st2, item)
          | .ok content =>
            ({ st2 with
                files := upd st2.files file_path content
                downloaded := upd st2.downloaded target_id file_path },
              { item with screenshot := some file_path })

/-- The fetch loop over the ordered records, returning the final state and
the records with their `screenshot` fields updated in place. -/
def run_fetch_go (env : FetchEnv) (name_map : Dict String) :
    FetchState → List Clickable → FetchState × List Clickable
  | st, [] => (st, [])
  | st, c :: cs =>
    let r := fetch_step env name_map st c
    let rest := run_fetch_go env name_map r.1 cs
    (rest.1, r.2 :: rest.2)

/-- The whole fetch phase of `main`, from the empty cache. -/
def run_fetch (env : FetchEnv) (name_map : Dict String)
    (ordered : List Clickable) : FetchState × List Clickable :=
  run_fetch_go env name_map fetch_state0 ordered

/-- The saved file path for a target id, as built in the fetch loop. -/
def save_path (name_map : Dict String) (target_id : String) : String :=
  "screenshots/" ++ sanitized_target_name name_map target_id ++ ".png"

/-- Whether an interaction descriptor has a (truthy) target, the test
`if target_id:` of the descriptor branch. -/
def has_target (i : Interaction) : Bool :=
  strTruthy i.target

/-- Number of records one node should contribute per the extraction count
invariant: descriptor-bearing qualifying nodes contribute their number of
descriptors with a present target, legacy-only qualifying nodes contribute
one, everything else zero. -/
def node_count (n : Node) : Nat :=
  if (n.prototypeInteractions.isSome || n.transitionNodeID.isSome)
      && n.absoluteBoundingBox.isSome then
    match n.prototypeInteractions with
    | some il => (il.filter has_target).length
    | none => 1
  else 0

mutual

/-- Sum of `node_count` over a whole tree. -/
def tree_count : Node → Nat
  | .mk i nm ty bb pr tr children =>
    node_count (.mk i nm ty bb pr tr children) + tree_count_list children

/-- Sum of `node_count` over a list of trees. -/
def tree_count_list : List Node → Nat
  | [] => 0
  | c :: cs => tree_count c + tree_count_list cs

end

mutual

/-- All nodes of a tree (the node itself and, recursively, its children). -/
def Node.subnodes : Node → List Node
  | .mk i nm ty bb pr tr children =>
    Node.mk i nm ty bb pr tr children :: subnodes_list children

/-- All nodes of a list of trees. -/
def subnodes_list : List Node → List Node
  | [] => []
  | c :: cs => c.subnodes ++ subnodes_list cs

end

/-! Concrete fixtures used by witnesses and counterexamples. -/

/-- An empty name map. -/
def no_names : Dict String := fun _ => none

/-- An empty parent map. -/
def no_parents : Dict (Option String) := fun _ => none

/-- An empty node lookup. -/
def no_nodes : Dict Node := fun _ => none

/-- A non-frame node with id `"A"` for the parent-cycle scenario. -/
def cyc_node_a : Node := .mk (some "A") (some "a") (some "GROUP") none none none []

/-- A non-frame node with id `"B"` for the parent-cycle scenario. -/
def cyc_node_b : Node := .mk (some "B") (some "b") (some "GROUP") none none none []

/-- A parent map forming the 2-cycle `A -> B -> A`. -/
def cyc_pm : Dict (Option String) := fun k =>
  if k = "A" then some (some "B") else if k = "B" then some (some "A") else none

/-- The node lookup matching `cyc_pm`. -/
def cyc_nl : Dict Node := fun k =>
  if k = "A" then some cyc_node_a else if k = "B" then some cyc_node_b else none

/-- Tier fixture: record `A` leaves the start screen. -/
def rec_a : Clickable :=
  { name := "A", from_screen := "Splash", tap_position := ⟨0, 0⟩
    navigates_to := "ta", interaction_type := "ON_CLICK"
    node_id := some "na", element_y := 0, screenshot := none }

/-- Tier fixture: record `B` navigates to the target named `"3"`. -/
def rec_b : Clickable :=
  { rec_a with
    name := "B"
    from_screen := "Home"
    navigates_to := "tb"
    node_id := some "nb"
    element_y := 1 }

/-- Tier fixture: record `C` navigates to the target named `"2"`. -/
def rec_c : Clickable :=
  { rec_a with
    name := "C"
    from_screen := "Home"
    navigates_to := "tc"
    node_id := some "nc"
    element_y := 2 }

/-- Tier fixture: ordinary record `D` with `element_y = 50`. -/
def rec_d : Clickable :=
  { rec_a with
    name := "D"
    from_screen := "Home"
    navigates_to := "td"
    node_id := some "nd"
    element_y := 50 }

/-- Tier fixture: ordinary record `E` with `element_y = 10`. -/
def rec_e : Clickable :=
  { rec_a with
    name := "E"
    from_screen := "Home"
    navigates_to := "te"
    node_id := some "ne"
    element_y := 10 }

/-- Name map for the tier fixture: `tb` is named `"3"`, `tc` is named
`"2"`. -/
def nm_tiers : Dict String := fun k =>
  if k = "tb" then some "3" else if k = "tc" then some "2" else none

/-- The screen bounding box of the coordinate example. -/
def frame_box : Box := ⟨100, 200, 500, 800⟩

/-- The enclosing screen of the coordinate example. -/
def frame_s : Node :=
  .mk (some "S") (some "Screen") (some "FRAME") (some frame_box) none none []

/-- The clicked node of the coordinate example: absolute box
`{x:110, y:210, w:20, h:20}`, a legacy transition to `"T"`. -/
def tap_node : Node :=
  .mk (some "N") (some "Button") (some "RECTANGLE") (some ⟨110, 210, 20, 20⟩)
    none (some "T") []

/-- Parent map of the coordinate example: `N`'s parent is `S`. -/
def c6_pm : Dict (Option String) := fun k =>
  if k = "N" then some (some "S") else none

/-- Node lookup of the coordinate example. -/
def c6_nl : Dict Node := fun k => if k = "S" then some frame_s else none

/-- The record the coordinate example must produce. -/
def c6_rec : Clickable :=
  { name := "Button", from_screen := "Screen", tap_position := ⟨20, 20⟩
    navigates_to := "T", interaction_type := "ON_CLICK"
    node_id := some "N", element_y := 210, screenshot := none }

/-- Rounding fixture: midpoint x is `0 + 1/2`. -/
def half_node_a : Node :=
  .mk (some "P") none none (some ⟨0, 7, 1, 4⟩) none (some "T") []

/-- Rounding fixture: midpoint x is `1 + 1/2`. -/
def half_node_b : Node :=
  .mk (some "Q") none none (some ⟨1, 7, 1, 4⟩) none (some "T") []

/-- A record whose screenshot fetch failed: the `screenshot` field still
holds `None`. -/
def rec_no_shot : Clickable :=
  { name := "X", from_screen := "Unknown", tap_position := ⟨1, 2⟩
    navigates_to := "T1", interaction_type := "ON_CLICK"
    node_id := some "x1", element_y := 0, screenshot := none }

/-- A fetch environment whose render call succeeds but yields no URL for any
id (the `images` map has no entry), so `download_image` returns `False`. -/
def env_no_url : FetchEnv :=
  { render := fun _ => .ok none, download := fun u => .ok ("bytes:" ++ u) }

/-- A fetch environment where every render and download succeeds. -/
def env_ok : FetchEnv :=
  { render := fun i => .ok (some ("url:" ++ i)),
    download := fun u => .ok ("bytes:" ++ u) }

/-- Two records sharing the navigation target `"T"`. -/
def twin_rec_1 : Clickable :=
  { rec_a with
    name := "R1"
    from_screen := "Home"
    navigates_to := "T" }

/-- Second record sharing the navigation target `"T"`. -/
def twin_rec_2 : Clickable :=
  { rec_a with
    name := "R2"
    from_screen := "Home"
    navigates_to := "T"
    element_y := 5 }

/-- A record navigating to id `"A"` (whose display name is unmapped). -/
def coll_rec_1 : Clickable :=
  { rec_a with
    name := "P1"
    from_screen := "Home"
    navigates_to := "A" }

/-- A record navigating to the distinct id `"B"` (also unmapped, so it
sanitizes to the same `"Target"` filename). -/
def coll_rec_2 : Clickable :=
  { rec_a with
    name := "P2"
    from_screen := "Home"
    navigates_to := "B"
    element_y := 3 }

/-- Count fixture: a node carrying both interaction descriptors and a legacy
transition; only the first descriptor has a truthy target. -/
def count_node_1 : Node :=
  .mk (some "n1") (some "One") none (some ⟨0, 0, 2, 2⟩)
    (some [⟨some "ON_CLICK", some "X"⟩, ⟨some "ON_DRAG", none⟩, ⟨none, some ""⟩])
    (some "L") []

/-- Count fixture: a legacy-transition-only node. -/
def count_node_2 : Node :=
  .mk (some "n2") (some "Two") none (some ⟨0, 4, 2, 2⟩) none (some "Y") []

/-- Count fixture: a root without a bounding box holding the two qualifying
children. -/
def count_root : Node :=
  .mk (some "root") (some "Root") none none none none
    [count_node_1, count_node_2]

/-- The record extracted from `count_node_1` (only its first descriptor has a
truthy target). -/
def count_rec_1 : Clickable :=
  { name := "One", from_screen := "Unknown", tap_position := ⟨1, 1⟩
    navigates_to := "X", interaction_type := "ON_CLICK"
    node_id := some "n1", element_y := 0, screenshot := none }

/-- The record extracted from `count_node_2` (legacy transition only). -/
def count_rec_2 : Clickable :=
  { name := "Two", from_screen := "Unknown", tap_position := ⟨1, 5⟩
    navigates_to := "Y", interaction_type := "ON_CLICK"
    node_id := some "n2", element_y := 4, screenshot := none }

/-- The record extracted from `half_node_a`: its midpoint x of `1/2` rounds
to the even neighbour `0`. -/
def half_rec_a : Clickable :=
  { name := "Unnamed", from_screen := "Unknown", tap_position := ⟨0, 9⟩
    navigates_to := "T", interaction_type := "ON_CLICK"
    node_id := some "P", element_y := 7, screenshot := none }

/-- The record extracted from `half_node_b`: its midpoint x of `3/2` rounds
to the even neighbour `2`. -/
def half_rec_b : Clickable :=
  { name := "Unnamed", from_screen := "Unknown", tap_position := ⟨2, 9⟩
    navigates_to := "T", interaction_type := "ON_CLICK"
    node_id := some "Q", element_y := 7, screenshot := none }

/-! Theorems. -/

theorem keyLe_iff (a b : Nat × ℚ) :
    keyLe a b = true ↔ a.1 < b.1 ∨ (a.1 = b.1 ∧ a.2 ≤ b.2) := by
  simp [keyLe]

theorem keyLe_total (a b : Nat × ℚ) : keyLe a b = true ∨ keyLe b a = true := by
  rcases Nat.lt_trichotomy a.1 b.1 with h | h | h
  · exact Or.inl ((keyLe_iff a b).mpr (Or.inl h))
  · rcases le_total a.2 b.2 with hq | hq
    · exact Or.inl ((keyLe_iff a b).mpr (Or.inr ⟨h, hq⟩))
    · exact Or.inr ((keyLe_iff b a).mpr (Or.inr ⟨h.symm, hq⟩))
  · exact Or.inr ((keyLe_iff b a).mpr (Or.inl h))

theorem keyLe_trans (a b c : Nat × ℚ) (hab : keyLe a b = true)
    (hbc : keyLe b c = true) : keyLe a c = true := by
  rw [keyLe_iff] at hab hbc ⊢
  rcases hab with h1 | ⟨h1, h1q⟩ <;> rcases hbc with h2 | ⟨h2, h2q⟩
  · exact Or.inl (h1.trans h2)
  · exact Or.inl (h2 ▸ h1)
  · exact Or.inl (h1 ▸ h2)
  · exact Or.inr ⟨h1.trans h2, h1q.trans h2q⟩

theorem click_le_total (name_map : Dict String) (start_screen : String)
    (a b : Clickable) :
    click_le name_map start_screen a b ∨ click_le name_map start_screen b a :=
  keyLe_total _ _

theorem click_le_trans (name_map : Dict String) (start_screen : String)
    (a b c : Clickable) (hab : click_le name_map start_screen a b)
    (hbc : click_le name_map start_screen b c) :
    click_le name_map start_screen a c :=
  keyLe_trans _ _ _ hab hbc

/-- C7: the Ordering Engine is a stable total sort: the output is a
permutation of the input, re-sorting the output is a no-op, and for every
key value the records carrying that key appear in the output in their input
order (stability). -/
theorem sort_clickables_stable_perm_idempotent
    (name_map : Dict String) (start_screen : String) (cs : List Clickable) :
    (sort_clickables cs name_map start_screen).Perm cs
    ∧ sort_clickables (sort_clickables cs name_map start_screen) name_map
        start_screen = sort_clickables cs name_map start_screen
    ∧ ∀ k : Nat × ℚ,
        (sort_clickables cs name_map start_screen).filter
            (fun c => decide (sort_key name_map start_screen c = k))
          = cs.filter (fun c => decide (sort_key name_map start_screen c = k)) := by
  haveI : IsTotal Clickable (click_le name_map start_screen) :=
    ⟨click_le_total name_map start_screen⟩
  haveI : IsTrans Clickable (click_le name_map start_screen) :=
    ⟨click_le_trans name_map start_screen⟩
  refine ⟨List.perm_insertionSort _ cs, ?_, ?_⟩
  · exact (List.sorted_insertionSort (click_le name_map start_screen) cs).insertionSort_eq
  · intro k
    set p : Clickable → Bool := fun c => decide (sort_key name_map start_screen c = k)
    have hpair : (cs.filter p).Pairwise (click_le name_map start_screen) := by
      have hall : ∀ x ∈ cs.filter p, sort_key name_map start_screen x = k := by
        intro x hx
        have := (List.mem_filter.mp hx).2
        simpa [p] using this
      refine List.pairwise_of_forall_mem_list ?_
      intro x hx y hy
      have hxk := hall x hx
      have hyk := hall y hy
      unfold click_le
      rw [hxk, hyk]
      exact (keyLe_iff k k).mpr (Or.inr ⟨rfl, le_refl _⟩)
    have hsub : List.Sublist (cs.filter p) (sort_clickables cs name_map start_screen) :=
      List.sublist_insertionSort hpair (List.filter_sublist cs)
    have hsub2 : List.Sublist (cs.filter p)
        ((sort_clickables cs name_map start_screen).filter p) := by
      have h1 := hsub.filter p
      have h2 : (cs.filter p).filter p = cs.filter p := by
        rw [List.filter_filter]
        simp
      rwa [h2] at h1
    have hlen : ((sort_clickables cs name_map start_screen).filter p).length
        = (cs.filter p).length :=
      ((List.perm_insertionSort _ cs).filter p).length_eq
    exact (hsub2.eq_of_length hlen.symm).symm

/-- C4: the sort key realizes the three tiers: start-screen records get key
`(0, 0)`; otherwise a target display name of `"3"` (after stripping) gives
key `(1, 1)` and `"2"` gives `(1, 2)`; everything else gets
`(2, element_y)`; consequently the fixture records `A, B, C, D, E` come out
in the order `A, B, C, E, D`. -/
theorem sort_key_tiers_and_example :
    (∀ (nm : Dict String) (start : String) (c : Clickable),
        c.from_screen = start → sort_key nm start c = (0, 0))
    ∧ (∀ (nm : Dict String) (start : String) (c : Clickable),
        c.from_screen ≠ start →
        strip ((nm c.navigates_to).getD "Unknown") = "3" →
        sort_key nm start c = (1, 1))
    ∧ (∀ (nm : Dict String) (start : String) (c : Clickable),
        c.from_screen ≠ start →
        strip ((nm c.navigates_to).getD "Unknown") = "2" →
        sort_key nm start c = (1, 2))
    ∧ (∀ (nm : Dict String) (start : String) (c : Clickable),
        c.from_screen ≠ start →
        strip ((nm c.navigates_to).getD "Unknown") ≠ "3" →
        strip ((nm c.navigates_to).getD "Unknown") ≠ "2" →
        sort_key nm start c = (2, c.element_y))
    ∧ sort_clickables [rec_a, rec_b, rec_c, rec_d, rec_e] nm_tiers "Splash"
        = [rec_a, rec_b, rec_c, rec_e, rec_d] := by
  refine ⟨?_, ?_, ?_, ?_, by decide⟩
  · intro nm start c h
    simp [sort_key, h]
  · intro nm start c h h3
    simp [sort_key, h, h3, target_order_preference]
  · intro nm start c h h2
    simp [sort_key, h, h2, target_order_preference]
  · intro nm start c h h3 h2
    simp [sort_key, h, h3, h2, target_order_preference]

/-- Witness for C4: the tier equations hold at the fixture records, with
every hypothesis checked on concrete data. -/
theorem sort_key_tiers_and_example_witness :
    sort_key nm_tiers "Splash" rec_a = (0, 0)
    ∧ sort_key nm_tiers "Splash" rec_b = (1, 1)
    ∧ sort_key nm_tiers "Splash" rec_c = (1, 2)
    ∧ sort_key nm_tiers "Splash" rec_d = (2, 50) := by
  refine ⟨sort_key_tiers_and_example.1 nm_tiers "Splash" rec_a (by decide),
    sort_key_tiers_and_example.2.1 nm_tiers "Splash" rec_b (by decide) (by decide),
    sort_key_tiers_and_example.2.2.1 nm_tiers "Splash" rec_c (by decide) (by decide),
    ?_⟩
  have h := sort_key_tiers_and_example.2.2.2.1 nm_tiers "Splash" rec_d
    (by decide) (by decide) (by decide)
  rw [h]
  rfl

theorem cyc_walk_stuck (fuel : Nat) :
    find_frame_ancestor_fuel cyc_pm cyc_nl fuel (some cyc_node_a) = none
    ∧ find_frame_ancestor_fuel cyc_pm cyc_nl fuel (some cyc_node_b) = none := by
  induction fuel with
  | zero => exact ⟨rfl, rfl⟩
  | succ n ih =>
    have hfa : isFrameWithBox cyc_node_a = false := rfl
    have hfb : isFrameWithBox cyc_node_b = false := rfl
    have hsa : step_current cyc_pm cyc_nl cyc_node_a = some cyc_node_b := rfl
    have hsb : step_current cyc_pm cyc_nl cyc_node_b = some cyc_node_a := rfl
    constructor
    · rw [find_frame_ancestor_fuel, hsa]
      simp only [hfa, Bool.false_eq_true, if_false]
      exact ih.2
    · rw [find_frame_ancestor_fuel, hsb]
      simp only [hfb, Bool.false_eq_true, if_false]
      exact ih.1

/-- C2: on a document whose parent links form a cycle of non-screen nodes,
the ancestor walk never finishes: for every iteration bound the loop is
still running, i.e. the unguarded `while` loop of `find_frame_ancestor`
diverges on this input. -/
theorem find_frame_ancestor_diverges_on_cycle (fuel : Nat) :
    find_frame_ancestor_fuel cyc_pm cyc_nl fuel (some cyc_node_a) = none :=
  (cyc_walk_stuck fuel).1

/-- C1: a record whose screenshot fetch failed still holds `None` in its
(always-present) `screenshot` key, so `generate_summary` reaches
`os.path.basename(None)` and raises `TypeError` instead of using the
sanitized-name fallback: the summary is never produced. -/
theorem summary_fails_on_missing_screenshot :
    generate_summary [rec_no_shot] no_names = none := rfl

theorem upd_self {α : Type} (m : Dict α) (k : String) (v : α) :
    upd m k v k = some v := by
  simp [upd]

theorem upd_other {α : Type} (m : Dict α) (k q : String) (v : α) (h : q ≠ k) :
    upd m k v q = m q := by
  simp [upd, h]

theorem bump_self (f : String → Nat) (k : String) : bump f k k = f k + 1 := by
  simp [bump]

theorem bump_other (f : String → Nat) (k q : String) (h : q ≠ k) :
    bump f k q = f q := by
  simp [bump, h]

theorem fetch_step_other (env : FetchEnv) (nm : Dict String) (st : FetchState)
    (c : Clickable) (t : String) (h : c.navigates_to ≠ t) :
    (fetch_step env nm st c).1.render_calls t = st.render_calls t
    ∧ (fetch_step env nm st c).1.download_calls t = st.download_calls t
    ∧ (fetch_step env nm st c).1.downloaded t = st.downloaded t
    ∧ (fetch_step env nm st c).2.navigates_to = c.navigates_to := by
  have h' : t ≠ c.navigates_to := Ne.symm h
  simp only [fetch_step]
  rcases hsd : st.downloaded c.navigates_to with _ | p
  · rcases hr : env.render c.navigates_to with e | url
    · simp [bump, h']
    · rcases url with _ | u
      · simp [bump, h']
      · by_cases hu : u = ""
        · simp [hu, bump, h']
        · rcases hd : env.download u with e | b
          · simp [hu, hd, bump, h']
          · simp [hu, hd, bump, upd, h']
  · simp

theorem fetch_step_hit (env : FetchEnv) (nm : Dict String) (st : FetchState)
    (c : Clickable) (p : String) (h : st.downloaded c.navigates_to = some p) :
    fetch_step env nm st c = (st, { c with screenshot := some p }) := by
  simp only [fetch_step, h]

theorem fetch_step_success (env : FetchEnv) (nm : Dict String)
    (st : FetchState) (c : Clickable) (u b : String)
    (hnone : st.downloaded c.navigates_to = none)
    (hr : env.render c.navigates_to = .ok (some u)) (hu : u ≠ "")
    (hd : env.download u = .ok b) :
    fetch_step env nm st c =
      ({ downloaded := upd st.downloaded c.navigates_to (save_path nm c.navigates_to)
         files := upd st.files (save_path nm c.navigates_to) b
         render_calls := bump st.render_calls c.navigates_to
         download_calls := bump st.download_calls c.navigates_to },
       { c with screenshot := some (save_path nm c.navigates_to) }) := by
  simp only [fetch_step, hnone, hr, hd, save_path]
  simp [hu]

theorem run_fetch_go_cached (env : FetchEnv) (nm : Dict String) (t p : String) :
    ∀ (cs : List Clickable) (st : FetchState), st.downloaded t = some p →
      (run_fetch_go env nm st cs).1.render_calls t = st.render_calls t
      ∧ (run_fetch_go env nm st cs).1.download_calls t = st.download_calls t
      ∧ (run_fetch_go env nm st cs).1.downloaded t = some p
      ∧ ∀ r ∈ (run_fetch_go env nm st cs).2, r.navigates_to = t →
          r.screenshot = some p
  | [], st, h => by simp [run_fetch_go, h]
  | c :: cs, st, h => by
    by_cases hct : c.navigates_to = t
    · have hstep : fetch_step env nm st c = (st, { c with screenshot := some p }) :=
        fetch_step_hit env nm st c p (by rwa [hct])
      have ih := run_fetch_go_cached env nm t p cs st h
      simp only [run_fetch_go, hstep]
      refine ⟨ih.1, ih.2.1, ih.2.2.1, ?_⟩
      intro r hr hrt
      rcases List.mem_cons.mp hr with h1 | h1
      · rw [h1]
      · exact ih.2.2.2 r h1 hrt
    · have ho := fetch_step_other env nm st c t hct
      have ih := run_fetch_go_cached env nm t p cs (fetch_step env nm st c).1
        (by rw [ho.2.2.1]; exact h)
      simp only [run_fetch_go]
      refine ⟨by rw [ih.1, ho.1], by rw [ih.2.1, ho.2.1], ih.2.2.1, ?_⟩
      intro r hr hrt
      rcases List.mem_cons.mp hr with h1 | h1
      · exfalso
        apply hct
        rw [← hrt, h1, ho.2.2.2]
      · exact ih.2.2.2 r h1 hrt

theorem run_fetch_go_success (env : FetchEnv) (nm : Dict String)
    (t u b : String) (hr : env.render t = .ok (some u)) (hu : u ≠ "")
    (hd : env.download u = .ok b) :
    ∀ (cs : List Clickable) (st : FetchState), st.downloaded t = none →
      t ∈ cs.map Clickable.navigates_to →
      (run_fetch_go env nm st cs).1.render_calls t = st.render_calls t + 1
      ∧ (run_fetch_go env nm st cs).1.download_calls t = st.download_calls t + 1
      ∧ ∀ r ∈ (run_fetch_go env nm st cs).2, r.navigates_to = t →
          r.screenshot = some (save_path nm t)
  | [], _, _, ht => absurd ht (by simp)
  | c :: cs, st, hnone, ht => by
    by_cases hct : c.navigates_to = t
    · have hstep := fetch_step_success env nm st c u b (by rwa [hct])
        (by rwa [hct]) hu hd
      rw [hct] at hstep
      have hcache := run_fetch_go_cached env nm t (save_path nm t) cs
        ({ downloaded := upd st.downloaded t (save_path nm t)
           files := upd st.files (save_path nm t) b
           render_calls := bump st.render_calls t
           download_calls := bump st.download_calls t })
        (by simp [upd])
      simp only [run_fetch_go, hstep]
      refine ⟨by rw [hcache.1]; simp [bump], by rw [hcache.2.1]; simp [bump], ?_⟩
      intro r hrr hrt
      rcases List.mem_cons.mp hrr with h1 | h1
      · rw [h1]
      · exact hcache.2.2.2 r h1 hrt
    · have ho := fetch_step_other env nm st c t hct
      have ht' : t ∈ cs.map Clickable.navigates_to := by
        rcases List.mem_map.mp ht with ⟨x, hx, hxt⟩
        rcases List.mem_cons.mp hx with h1 | h1
        · exact absurd (by rw [← h1]; exact hxt) hct
        · exact List.mem_map.mpr ⟨x, h1, hxt⟩
      have ih := run_fetch_go_success env nm t u b hr hu hd cs
        (fetch_step env nm st c).1 (by rw [ho.2.2.1]; exact hnone) ht'
      simp only [run_fetch_go]
      refine ⟨by rw [ih.1, ho.1], by rw [ih.2.1, ho.2.1], ?_⟩
      intro r hrr hrt
      rcases List.mem_cons.mp hrr with h1 | h1
      · exfalso
        apply hct
        rw [← hrt, h1, ho.2.2.2]
      · exact ih.2.2 r h1 hrt

/-- C3 (amended): when the target's render call returns a URL and the
download succeeds, a run whose records include that target performs exactly
one render call and one byte download for that id, and every record sharing
that `navigates_to` ends the run with the identical saved screenshot
path. -/
theorem fetch_cache_single_render_download (env : FetchEnv)
    (nm : Dict String) (cs : List Clickable) (t u b : String)
    (ht : t ∈ cs.map Clickable.navigates_to)
    (hr : env.render t = .ok (some u)) (hu : u ≠ "")
    (hd : env.download u = .ok b) :
    (run_fetch env nm cs).1.render_calls t = 1
    ∧ (run_fetch env nm cs).1.download_calls t = 1
    ∧ ∀ r ∈ (run_fetch env nm cs).2, r.navigates_to = t →
        r.screenshot = some (save_path nm t) := by
  have h := run_fetch_go_success env nm t u b hr hu hd cs fetch_state0 rfl ht
  simpa [run_fetch, fetch_state0] using h

/-- Counterexample for C3: when the render call succeeds but returns no URL,
the first record's fetch saves nothing and the second record with the same
target triggers a second render call, so the claimed "exactly one render
request" is false. -/
theorem fetch_retries_render_on_failure :
    (run_fetch env_no_url no_names [twin_rec_1, twin_rec_2]).1.render_calls "T" = 2
    ∧ ¬ (run_fetch env_no_url no_names [twin_rec_1, twin_rec_2]).1.render_calls "T" = 1 := by
  decide

/-- Witness for the amended C3: a successful two-record run with the shared
target `"T"` makes one render call, one download, and gives both records the
same saved path. -/
theorem fetch_cache_single_render_download_witness :
    (run_fetch env_ok no_names [twin_rec_1, twin_rec_2]).1.render_calls "T" = 1
    ∧ (run_fetch env_ok no_names [twin_rec_1, twin_rec_2]).1.download_calls "T" = 1
    ∧ ∀ r ∈ (run_fetch env_ok no_names [twin_rec_1, twin_rec_2]).2,
        r.navigates_to = "T" → r.screenshot = some (save_path no_names "T") :=
  fetch_cache_single_render_download env_ok no_names [twin_rec_1, twin_rec_2]
    "T" "url:T" "bytes:url:T" (by decide) rfl (by decide) rfl

/-- C10: the save path depends only on the sanitized display name, so two
distinct targets with the same sanitized name share one file: both records
end up carrying the identical path and the second download overwrites the
first target's image. -/
theorem screenshot_path_collision_overwrite (env : FetchEnv)
    (nm : Dict String) (r1 r2 : Clickable) (u1 u2 b1 b2 : String)
    (hne : r1.navigates_to ≠ r2.navigates_to)
    (hsan : sanitized_target_name nm r1.navigates_to
        = sanitized_target_name nm r2.navigates_to)
    (hr1 : env.render r1.navigates_to = .ok (some u1)) (hu1 : u1 ≠ "")
    (hd1 : env.download u1 = .ok b1)
    (hr2 : env.render r2.navigates_to = .ok (some u2)) (hu2 : u2 ≠ "")
    (hd2 : env.download u2 = .ok b2) :
    (run_fetch env nm [r1, r2]).2.map Clickable.screenshot
      = [some (save_path nm r1.navigates_to), some (save_path nm r1.navigates_to)]
    ∧ (run_fetch env nm [r1, r2]).1.files (save_path nm r1.navigates_to)
      = some b2 := by
  have hp : save_path nm r2.navigates_to = save_path nm r1.navigates_to := by
    unfold save_path
    rw [hsan]
  have hstep1 := fetch_step_success env nm fetch_state0 r1 u1 b1 rfl hr1 hu1 hd1
  have hnone2 : (upd fetch_state0.downloaded r1.navigates_to
      (save_path nm r1.navigates_to)) r2.navigates_to = none := by
    rw [upd_other _ _ _ _ (Ne.symm hne)]
    rfl
  have hstep2 := fetch_step_success env nm
    ({ downloaded := upd fetch_state0.downloaded r1.navigates_to (save_path nm r1.navigates_to)
       files := upd fetch_state0.files (save_path nm r1.navigates_to) b1
       render_calls := bump fetch_state0.render_calls r1.navigates_to
       download_calls := bump fetch_state0.download_calls r1.navigates_to })
    r2 u2 b2 hnone2 hr2 hu2 hd2
  simp only [run_fetch, run_fetch_go, hstep1, hstep2]
  constructor
  · simp [hp]
  · rw [hp, upd_self]

/-- Witness for C10: two records navigating to the distinct unmapped ids
`"A"` and `"B"` both sanitize to `"Target"`, share the path
`screenshots/Target.png`, and the file ends up holding the bytes of the
second target's image. -/
theorem screenshot_path_collision_overwrite_witness :
    (run_fetch env_ok no_names [coll_rec_1, coll_rec_2]).2.map Clickable.screenshot
      = [some (save_path no_names "A"), some (save_path no_names "A")]
    ∧ (run_fetch env_ok no_names [coll_rec_1, coll_rec_2]).1.files
        (save_path no_names "A") = some "bytes:url:B" :=
  screenshot_path_collision_overwrite env_ok no_names coll_rec_1 coll_rec_2
    "url:A" "url:B" "bytes:url:A" "bytes:url:B" (by decide) (by decide)
    rfl (by decide) rfl rfl (by decide) rfl

theorem node_records_tap_frame (pm : Dict (Option String)) (nl : Dict Node)
    (fuel : Nat) (n : Node) (box : Box) (frame : Node) (fbox : Box)
    (recs : List Clickable)
    (hbox : n.absoluteBoundingBox = some box)
    (hw : find_frame_ancestor_fuel pm nl fuel (some n) = some (some frame))
    (hfb : frame.absoluteBoundingBox = some fbox)
    (hrecs : node_records pm nl fuel n = some recs) :
    ∀ r ∈ recs, r.tap_position =
      ⟨pyRound (box.x + box.width / 2 - fbox.x),
        pyRound (box.y + box.height / 2 - fbox.y)⟩ := by
  intro r hr
  rcases n with ⟨i, nme, ty, bb, pr, tr, ch⟩
  simp only [Node.absoluteBoundingBox] at hbox
  subst hbox
  rcases pr with _ | il <;> rcases tr with _ | t
  · simp only [node_records, Node.prototypeInteractions, Node.transitionNodeID,
      Option.isSome_none, Bool.or_self] at hrecs
    injection hrecs with h
    subst h
    exact absurd hr (List.not_mem_nil r)
  · simp only [node_records, Node.prototypeInteractions, Node.transitionNodeID,
      Option.isSome_none, Option.isSome_some, Bool.or_true, hw, hfb] at hrecs
    injection hrecs with h
    subst h
    rcases List.mem_singleton.mp hr with rfl
    rfl
  · simp only [node_records, Node.prototypeInteractions, Node.transitionNodeID,
      Option.isSome_none, Option.isSome_some, Bool.true_or, hw, hfb] at hrecs
    injection hrecs with h
    subst h
    rcases List.mem_filterMap.mp hr with ⟨j, hj, hjr⟩
    rcases hjt : j.target with _ | t'
    · rw [hjt] at hjr
      dsimp only at hjr
      cases hjr
    · rw [hjt] at hjr
      dsimp only at hjr
      by_cases ht' : t' = ""
      · rw [if_neg (by simp [ht'])] at hjr
        cases hjr
      · rw [if_pos (by simp [ht'])] at hjr
        injection hjr with h
        subst h
        rfl
  · simp only [node_records, Node.prototypeInteractions, Node.transitionNodeID,
      Option.isSome_some, Bool.true_or, hw, hfb] at hrecs
    injection hrecs with h
    subst h
    rcases List.mem_filterMap.mp hr with ⟨j, hj, hjr⟩
    rcases hjt : j.target with _ | t'
    · rw [hjt] at hjr
      dsimp only at hjr
      cases hjr
    · rw [hjt] at hjr
      dsimp only at hjr
      by_cases ht' : t' = ""
      · rw [if_neg (by simp [ht'])] at hjr
        cases hjr
      · rw [if_pos (by simp [ht'])] at hjr
        injection hjr with h
        subst h
        rfl

theorem node_records_tap_noframe (pm : Dict (Option String)) (nl : Dict Node)
    (fuel : Nat) (n : Node) (box : Box) (recs : List Clickable)
    (hbox : n.absoluteBoundingBox = some box)
    (hw : find_frame_ancestor_fuel pm nl fuel (some n) = some none)
    (hrecs : node_records pm nl fuel n = some recs) :
    ∀ r ∈ recs, r.tap_position =
      ⟨pyRound (box.x + box.width / 2), pyRound (box.y + box.height / 2)⟩ := by
  intro r hr
  rcases n with ⟨i, nme, ty, bb, pr, tr, ch⟩
  simp only [Node.absoluteBoundingBox] at hbox
  subst hbox
  rcases pr with _ | il <;> rcases tr with _ | t
  · simp only [node_records, Node.prototypeInteractions, Node.transitionNodeID,
      Option.isSome_none, Bool.or_self] at hrecs
    injection hrecs with h
    subst h
    exact absurd hr (List.not_mem_nil r)
  · simp only [node_records, Node.prototypeInteractions, Node.transitionNodeID,
      Option.isSome_none, Option.isSome_some, Bool.or_true, hw] at hrecs
    injection hrecs with h
    subst h
    rcases List.mem_singleton.mp hr with rfl
    rfl
  · simp only [node_records, Node.prototypeInteractions, Node.transitionNodeID,
      Option.isSome_none, Option.isSome_some, Bool.true_or, hw] at hrecs
    injection hrecs with h
    subst h
    rcases List.mem_filterMap.mp hr with ⟨j, hj, hjr⟩
    rcases hjt : j.target with _ | t'
    · rw [hjt] at hjr
      dsimp only at hjr
      cases hjr
    · rw [hjt] at hjr
      dsimp only at hjr
      by_cases ht' : t' = ""
      · rw [if_neg (by simp [ht'])] at hjr
        cases hjr
      · rw [if_pos (by simp [ht'])] at hjr
        injection hjr with h
        subst h
        rfl
  · simp only [node_records, Node.prototypeInteractions, Node.transitionNodeID,
      Option.isSome_some, Bool.true_or, hw] at hrecs
    injection hrecs with h
    subst h
    rcases List.mem_filterMap.mp hr with ⟨j, hj, hjr⟩
    rcases hjt : j.target with _ | t'
    · rw [hjt] at hjr
      dsimp only at hjr
      cases hjr
    · rw [hjt] at hjr
      dsimp only at hjr
      by_cases ht' : t' = ""
      · rw [if_neg (by simp [ht'])] at hjr
        cases hjr
      · rw [if_pos (by simp [ht'])] at hjr
        injection hjr with h
        subst h
        rfl

/-- C6: for a qualifying node, the emitted tap position is the rounded
bounding-box midpoint shifted by the resolved screen's origin when the walk
found a screen (screens found by the walk always carry a box), and the
rounded absolute midpoint when it found none. -/
theorem tap_position_screen_relative (pm : Dict (Option String))
    (nl : Dict Node) (fuel : Nat) (n : Node) (box : Box)
    (recs : List Clickable)
    (hbox : n.absoluteBoundingBox = some box)
    (hrecs : node_records pm nl fuel n = some recs) :
    (∀ frame fbox,
        find_frame_ancestor_fuel pm nl fuel (some n) = some (some frame) →
        frame.absoluteBoundingBox = some fbox →
        ∀ r ∈ recs, r.tap_position =
          ⟨pyRound (box.x + box.width / 2 - fbox.x),
            pyRound (box.y + box.height / 2 - fbox.y)⟩)
    ∧ (find_frame_ancestor_fuel pm nl fuel (some n) = some none →
        ∀ r ∈ recs, r.tap_position =
          ⟨pyRound (box.x + box.width / 2), pyRound (box.y + box.height / 2)⟩) :=
  ⟨fun frame fbox hw hfb =>
      node_records_tap_frame pm nl fuel n box frame fbox recs hbox hw hfb hrecs,
    fun hw => node_records_tap_noframe pm nl fuel n box recs hbox hw hrecs⟩

theorem c6_eval : node_records c6_pm c6_nl 2 tap_node = some [c6_rec] := by
  have hf : find_frame_ancestor_fuel c6_pm c6_nl 2 (some tap_node)
      = some (some frame_s) := rfl
  have hbb : tap_node.absoluteBoundingBox = some ⟨110, 210, 20, 20⟩ := rfl
  have hpi : tap_node.prototypeInteractions = none := rfl
  have htr : tap_node.transitionNodeID = some "T" := rfl
  have hnm : tap_node.name = some "Button" := rfl
  have hid : tap_node.id = some "N" := rfl
  have hfb : frame_s.absoluteBoundingBox = some ⟨100, 200, 500, 800⟩ := rfl
  have hfn : frame_s.name = some "Screen" := rfl
  unfold node_records
  rw [hbb, hpi, htr]
  simp only [Option.isSome, Bool.false_or, hf, hfb, hfn, hnm, hid, c6_rec,
    Option.getD_some, make_clickable]
  norm_num [pyRound]

/-- Witness for C6: the concrete node with box `{x:110, y:210, w:20, h:20}`
inside the screen with box `{x:100, y:200, w:500, h:800}` gets tap position
`{x:20, y:20}`. -/
theorem tap_position_screen_relative_witness :
    node_records c6_pm c6_nl 2 tap_node = some [c6_rec]
    ∧ c6_rec.tap_position
        = ⟨pyRound (110 + 20 / 2 - 100), pyRound (210 + 20 / 2 - 200)⟩
    ∧ c6_rec.tap_position = ⟨20, 20⟩ := by
  refine ⟨c6_eval, ?_, rfl⟩
  exact (tap_position_screen_relative c6_pm c6_nl 2 tap_node ⟨110, 210, 20, 20⟩
    [c6_rec] rfl c6_eval).1 frame_s frame_box rfl rfl c6_rec (by simp)

theorem pyRound_int_add_half (k : ℤ) :
    pyRound ((k : ℚ) + 1 / 2) = if k % 2 = 0 then k else k + 1 := by
  have hf : ⌊(k : ℚ) + 1 / 2⌋ = k := by
    rw [Int.floor_int_add]
    norm_num
  have hsub : (k : ℚ) + 1 / 2 - k = 1 / 2 := by ring
  unfold pyRound
  rw [hf, hsub]
  norm_num

/-- C9: rounding of a tap coordinate resolves exact halves to the even
neighbour: a qualifying node (here with no enclosing screen, so the
screen-relative midpoint is the absolute one) whose midpoint x is `k + 1/2`
gets coordinate `k` when `k` is even and `k + 1` when `k` is odd. -/
theorem tap_rounding_half_even (pm : Dict (Option String)) (nl : Dict Node)
    (fuel : Nat) (n : Node) (box : Box) (recs : List Clickable) (k : ℤ)
    (hbox : n.absoluteBoundingBox = some box)
    (hrecs : node_records pm nl fuel n = some recs)
    (hw : find_frame_ancestor_fuel pm nl fuel (some n) = some none)
    (hmid : box.x + box.width / 2 = (k : ℚ) + 1 / 2) :
    ∀ r ∈ recs, r.tap_position.x = if k % 2 = 0 then k else k + 1 := by
  intro r hr
  have h := node_records_tap_noframe pm nl fuel n box recs hbox hw hrecs r hr
  rw [h]
  show pyRound (box.x + box.width / 2) = _
  rw [hmid, pyRound_int_add_half]

theorem c9_eval_a :
    node_records no_parents no_nodes 2 half_node_a = some [half_rec_a] := by
  have hf : find_frame_ancestor_fuel no_parents no_nodes 2 (some half_node_a)
      = some none := rfl
  have hbb : half_node_a.absoluteBoundingBox = some ⟨0, 7, 1, 4⟩ := rfl
  have hpi : half_node_a.prototypeInteractions = none := rfl
  have htr : half_node_a.transitionNodeID = some "T" := rfl
  have hnm : half_node_a.name = none := rfl
  have hid : half_node_a.id = some "P" := rfl
  unfold node_records
  rw [hbb, hpi, htr]
  simp only [Option.isSome, Bool.false_or, hf, hnm, hid, half_rec_a,
    Option.getD_none, make_clickable]
  norm_num [pyRound]

theorem c9_eval_b :
    node_records no_parents no_nodes 2 half_node_b = some [half_rec_b] := by
  have hf : find_frame_ancestor_fuel no_parents no_nodes 2 (some half_node_b)
      = some none := rfl
  have hbb : half_node_b.absoluteBoundingBox = some ⟨1, 7, 1, 4⟩ := rfl
  have hpi : half_node_b.prototypeInteractions = none := rfl
  have htr : half_node_b.transitionNodeID = some "T" := rfl
  have hnm : half_node_b.name = none := rfl
  have hid : half_node_b.id = some "Q" := rfl
  unfold node_records
  rw [hbb, hpi, htr]
  simp only [Option.isSome, Bool.false_or, hf, hnm, hid, half_rec_b,
    Option.getD_none, make_clickable]
  norm_num [pyRound]

theorem length_filterMap_target (f : Interaction → String → Clickable) :
    ∀ il : List Interaction,
      (il.filterMap fun i =>
        match i.target with
        | some t => if t ≠ "" then some (f i t) else none
        | none => none).length
      = (il.filter has_target).length
  | [] => rfl
  | i :: il => by
    have ih := length_filterMap_target f il
    rw [List.filterMap_cons, List.filter_cons]
    rcases hit : i.target with _ | t
    · dsimp only
      have hht : has_target i = false := by simp [has_target, strTruthy, hit]
      rw [hht, if_neg (show ¬(false = true) from by simp)]
      exact ih
    · by_cases ht : t = ""
      · have hht : has_target i = false := by
          simp [has_target, strTruthy, hit, ht]
        dsimp only
        rw [if_neg (show ¬(t ≠ "") from by simp [ht])]
        dsimp only
        rw [hht, if_neg (show ¬(false = true) from by simp)]
        exact ih
      · have hht : has_target i = true := by
          simp [has_target, strTruthy, hit, ht]
        dsimp only
        rw [if_pos (show (t ≠ "") from ht)]
        dsimp only
        rw [hht, if_pos (show (true = true) from rfl)]
        simp only [List.length_cons]
        rw [ih]

theorem node_records_length (pm : Dict (Option String)) (nl : Dict Node)
    (fuel : Nat) (n : Node) (recs : List Clickable)
    (h : node_records pm nl fuel n = some recs) :
    recs.length = node_count n := by
  rcases n with ⟨i, nme, ty, bb, pr, tr, ch⟩
  rcases bb with _ | box
  · simp only [node_records, Node.absoluteBoundingBox] at h
    injection h with h
    subst h
    simp [node_count, Node.absoluteBoundingBox]
  · rcases pr with _ | il <;> rcases tr with _ | t
    · simp only [node_records, Node.absoluteBoundingBox, Node.prototypeInteractions,
        Node.transitionNodeID, Option.isSome_none, Bool.or_self] at h
      injection h with h
      subst h
      simp [node_count, Node.absoluteBoundingBox, Node.prototypeInteractions,
        Node.transitionNodeID]
    · rcases hw : find_frame_ancestor_fuel pm nl fuel
          (some (Node.mk i nme ty (some box) none (some t) ch)) with _ | fo
      · simp only [node_records, Node.absoluteBoundingBox, Node.prototypeInteractions,
          Node.transitionNodeID, Option.isSome_none, Option.isSome_some,
          Bool.or_true, hw] at h
        cases h
      · simp only [node_records, Node.absoluteBoundingBox, Node.prototypeInteractions,
          Node.transitionNodeID, Option.isSome_none, Option.isSome_some,
          Bool.or_true, hw] at h
        injection h with h
        subst h
        simp [node_count, Node.absoluteBoundingBox, Node.prototypeInteractions,
          Node.transitionNodeID]
    · rcases hw : find_frame_ancestor_fuel pm nl fuel
          (some (Node.mk i nme ty (some box) (some il) none ch)) with _ | fo
      · simp only [node_records, Node.absoluteBoundingBox, Node.prototypeInteractions,
          Node.transitionNodeID, Option.isSome_none, Option.isSome_some,
          Bool.true_or, hw] at h
        cases h
      · simp only [node_records, Node.absoluteBoundingBox, Node.prototypeInteractions,
          Node.transitionNodeID, Option.isSome_none, Option.isSome_some,
          Bool.true_or, hw] at h
        injection h with h
        subst h
        simp only [node_count, Node.absoluteBoundingBox, Node.prototypeInteractions,
          Node.transitionNodeID, Option.isSome_some, Bool.true_or,
          Bool.and_self, if_true]
        exact length_filterMap_target _ il
    · rcases hw : find_frame_ancestor_fuel pm nl fuel
          (some (Node.mk i nme ty (some box) (some il) (some t) ch)) with _ | fo
      · simp only [node_records, Node.absoluteBoundingBox, Node.prototypeInteractions,
          Node.transitionNodeID, Option.isSome_some, Bool.true_or, hw] at h
        cases h
      · simp only [node_records, Node.absoluteBoundingBox, Node.prototypeInteractions,
          Node.transitionNodeID, Option.isSome_some, Bool.true_or, hw] at h
        injection h with h
        subst h
        simp only [node_count, Node.absoluteBoundingBox, Node.prototypeInteractions,
          Node.transitionNodeID, Option.isSome_some, Bool.true_or,
          Bool.and_self, if_true]
        exact length_filterMap_target _ il

mutual

theorem extract_clickables_length (pm : Dict (Option String)) (nl : Dict Node)
    (fuel : Nat) : ∀ (n : Node) (cs : List Clickable),
    extract_clickables pm nl fuel n = some cs → cs.length = tree_count n
  | .mk i nme ty bb pr tr ch, cs, h => by
    simp only [extract_clickables] at h
    rcases hcl : extract_clickables_list pm nl fuel ch with _ | childRecs
    · rw [hcl] at h
      cases h
    · rw [hcl] at h
      dsimp only at h
      rcases hnr : node_records pm nl fuel (Node.mk i nme ty bb pr tr ch)
          with _ | own
      · rw [hnr] at h
        cases h
      · rw [hnr] at h
        dsimp only at h
        injection h with h
        subst h
        rw [List.length_append]
        rw [extract_clickables_list_length pm nl fuel ch childRecs hcl,
          node_records_length pm nl fuel _ own hnr]
        simp only [tree_count]
        omega

theorem extract_clickables_list_length (pm : Dict (Option String))
    (nl : Dict Node) (fuel : Nat) : ∀ (ns : List Node) (cs : List Clickable),
    extract_clickables_list pm nl fuel ns = some cs →
    cs.length = tree_count_list ns
  | [], cs, h => by
    simp only [extract_clickables_list] at h
    injection h with h
    subst h
    rfl
  | n :: ns, cs, h => by
    simp only [extract_clickables_list] at h
    rcases h1 : extract_clickables pm nl fuel n with _ | rs
    · rw [h1] at h
      cases h
    · rw [h1] at h
      dsimp only at h
      rcases h2 : extract_clickables_list pm nl fuel ns with _ | rest
      · rw [h2] at h
        cases h
      · rw [h2] at h
        dsimp only at h
        injection h with h
        subst h
        rw [List.length_append,
          extract_clickables_length pm nl fuel n rs h1,
          extract_clickables_list_length pm nl fuel ns rest h2]
        rfl

end

theorem node_records_descriptor_targets (pm : Dict (Option String))
    (nl : Dict Node) (fuel : Nat) (n : Node) (il : List Interaction)
    (rs : List Clickable) (hpi : n.prototypeInteractions = some il)
    (h : node_records pm nl fuel n = some rs) :
    ∀ r ∈ rs, some r.navigates_to ∈ il.map Interaction.target := by
  rcases n with ⟨i, nme, ty, bb, pr, tr, ch⟩
  simp only [Node.prototypeInteractions] at hpi
  subst hpi
  rcases bb with _ | box
  · simp only [node_records, Node.absoluteBoundingBox] at h
    injection h with h
    subst h
    intro r hr
    exact absurd hr (List.not_mem_nil r)
  · rcases hw : find_frame_ancestor_fuel pm nl fuel
        (some (Node.mk i nme ty (some box) (some il) tr ch)) with _ | fo
    · simp only [node_records, Node.absoluteBoundingBox, Node.prototypeInteractions,
        Node.transitionNodeID, Option.isSome_some, Bool.true_or, hw] at h
      cases h
    · simp only [node_records, Node.absoluteBoundingBox, Node.prototypeInteractions,
        Node.transitionNodeID, Option.isSome_some, Bool.true_or, hw] at h
      injection h with h
      subst h
      intro r hr
      rcases List.mem_filterMap.mp hr with ⟨j, hj, hjr⟩
      rcases hjt : j.target with _ | t'
      · rw [hjt] at hjr
        dsimp only at hjr
        cases hjr
      · rw [hjt] at hjr
        dsimp only at hjr
        by_cases ht' : t' = ""
        · rw [if_neg (by simp [ht'])] at hjr
          cases hjr
        · rw [if_pos (by simp [ht'])] at hjr
          injection hjr with hr'
          subst hr'
          exact List.mem_map.mpr ⟨j, hj, hjt⟩

/-- C5: the number of extracted Clickables equals the sum over qualifying
nodes of the number of interaction descriptors with a present target
(descriptor-bearing nodes) plus one per legacy-transition-only qualifying
node; and records of a descriptor-bearing node all come from its descriptor
list, so a node with both forms never contributes a legacy record. -/
theorem extract_count_invariant :
    (∀ (pm : Dict (Option String)) (nl : Dict Node) (fuel : Nat) (n : Node)
        (cs : List Clickable), extract_clickables pm nl fuel n = some cs →
        cs.length = tree_count n)
    ∧ (∀ (pm : Dict (Option String)) (nl : Dict Node) (fuel : Nat) (n : Node)
        (il : List Interaction) (rs : List Clickable),
        n.prototypeInteractions = some il →
        node_records pm nl fuel n = some rs →
        ∀ r ∈ rs, some r.navigates_to ∈ il.map Interaction.target) :=
  ⟨fun pm nl fuel n cs h => extract_clickables_length pm nl fuel n cs h,
    fun pm nl fuel n il rs hpi h =>
      node_records_descriptor_targets pm nl fuel n il rs hpi h⟩

theorem c5_eval_1 :
    node_records no_parents no_nodes 2 count_node_1 = some [count_rec_1] := by
  have hf : find_frame_ancestor_fuel no_parents no_nodes 2 (some count_node_1)
      = some none := rfl
  have hbb : count_node_1.absoluteBoundingBox = some ⟨0, 0, 2, 2⟩ := rfl
  have hpi : count_node_1.prototypeInteractions
      = some [⟨some "ON_CLICK", some "X"⟩, ⟨some "ON_DRAG", none⟩,
        ⟨none, some ""⟩] := rfl
  have hnm : count_node_1.name = some "One" := rfl
  have hid : count_node_1.id = some "n1" := rfl
  unfold node_records
  rw [hbb, hpi]
  simp only [Option.isSome, Bool.true_or, hf, hnm, hid, count_rec_1,
    make_clickable, Option.getD_some, List.filterMap_cons, List.filterMap_nil]
  norm_num [pyRound]
  simp

theorem c5_eval_2 :
    node_records no_parents no_nodes 2 count_node_2 = some [count_rec_2] := by
  have hf : find_frame_ancestor_fuel no_parents no_nodes 2 (some count_node_2)
      = some none := rfl
  have hbb : count_node_2.absoluteBoundingBox = some ⟨0, 4, 2, 2⟩ := rfl
  have hpi : count_node_2.prototypeInteractions = none := rfl
  have htr : count_node_2.transitionNodeID = some "Y" := rfl
  have hnm : count_node_2.name = some "Two" := rfl
  have hid : count_node_2.id = some "n2" := rfl
  unfold node_records
  rw [hbb, hpi, htr]
  simp only [Option.isSome, Bool.false_or, hf, hnm, hid, count_rec_2,
    make_clickable, Option.getD_some]
  norm_num [pyRound]

theorem c5_eval :
    extract_clickables no_parents no_nodes 2 count_root
      = some [count_rec_1, count_rec_2] := by
  have h1 : extract_clickables no_parents no_nodes 2 count_node_1
      = some [count_rec_1] := by
    have h := c5_eval_1
    simp only [count_node_1] at h ⊢
    simp only [extract_clickables, extract_clickables_list]
    rw [h]
    rfl
  have h2 : extract_clickables no_parents no_nodes 2 count_node_2
      = some [count_rec_2] := by
    have h := c5_eval_2
    simp only [count_node_2] at h ⊢
    simp only [extract_clickables, extract_clickables_list]
    rw [h]
    rfl
  simp only [count_root]
  simp only [extract_clickables]
  simp only [extract_clickables_list]
  rw [h1, h2]
  rfl

/-- Witness for C5: the fixture tree (a both-forms node whose descriptor
list has one truthy target, plus a legacy-only node) extracts exactly two
records, matching `tree_count`, and the both-forms node's record comes from
its descriptor list. -/
theorem extract_count_invariant_witness :
    extract_clickables no_parents no_nodes 2 count_root
      = some [count_rec_1, count_rec_2]
    ∧ ([count_rec_1, count_rec_2] : List Clickable).length
        = tree_count count_root
    ∧ some count_rec_1.navigates_to ∈
        ([⟨some "ON_CLICK", some "X"⟩, ⟨some "ON_DRAG", none⟩,
          ⟨none, some ""⟩] : List Interaction).map Interaction.target := by
  refine ⟨c5_eval,
    extract_count_invariant.1 no_parents no_nodes 2 count_root _ c5_eval, ?_⟩
  exact extract_count_invariant.2 no_parents no_nodes 2 count_node_1 _
    [count_rec_1] rfl c5_eval_1 count_rec_1 (by simp)

/-- Witness for C9: the node with midpoint x `1/2` gets coordinate `0` and
the node with midpoint x `3/2` gets coordinate `2` (both even neighbours,
not the half-away-from-zero results `1` and `2`). -/
theorem tap_rounding_half_even_witness :
    (node_records no_parents no_nodes 2 half_node_a = some [half_rec_a]
      ∧ half_rec_a.tap_position.x = 0)
    ∧ (node_records no_parents no_nodes 2 half_node_b = some [half_rec_b]
      ∧ half_rec_b.tap_position.x = 2) := by
  refine ⟨⟨c9_eval_a, ?_⟩, ⟨c9_eval_b, ?_⟩⟩
  · have h := tap_rounding_half_even no_parents no_nodes 2 half_node_a
      ⟨0, 7, 1, 4⟩ [half_rec_a] 0 rfl c9_eval_a rfl (by norm_num) half_rec_a
      (by simp)
    simpa using h
  · have h := tap_rounding_half_even no_parents no_nodes 2 half_node_b
      ⟨1, 7, 1, 4⟩ [half_rec_b] 1 rfl c9_eval_b rfl (by norm_num) half_rec_b
      (by simp)
    simpa using h

theorem insert_node_aligned (n : Node) (p : Option Node) (m : Maps)
    (h : ∀ k, ((m.name_map k).isSome = (m.parent_map k).isSome)
      ∧ ((m.name_map k).isSome = (m.node_lookup k).isSome)) :
    ∀ k, (((insert_node n p m).name_map k).isSome
        = ((insert_node n p m).parent_map k).isSome)
      ∧ (((insert_node n p m).name_map k).isSome
        = ((insert_node n p m).node_lookup k).isSome) := by
  intro k
  unfold insert_node
  rcases hid : n.id with _ | i
  · exact h k
  · dsimp only
    by_cases hi : i = ""
    · rw [if_neg (show ¬(i ≠ "") from by simp [hi])]
      exact h k
    · rw [if_pos (show (i ≠ "") from hi)]
      by_cases hk : k = i
      · subst hk
        simp [upd]
      · simp only [upd, hk, if_false]
        simpa [hk] using h k

mutual

theorem build_node_maps_aligned : ∀ (n : Node) (p : Option Node) (m : Maps),
    (∀ k, ((m.name_map k).isSome = (m.parent_map k).isSome)
      ∧ ((m.name_map k).isSome = (m.node_lookup k).isSome)) →
    ∀ k, (((build_node_maps n p m).name_map k).isSome
        = ((build_node_maps n p m).parent_map k).isSome)
      ∧ (((build_node_maps n p m).name_map k).isSome
        = ((build_node_maps n p m).node_lookup k).isSome)
  | .mk i nme ty bb pr tr ch, p, m, h => by
    simp only [build_node_maps]
    exact build_node_maps_list_aligned ch (some (.mk i nme ty bb pr tr ch))
      (insert_node (.mk i nme ty bb pr tr ch) p m)
      (insert_node_aligned _ p m h)

theorem build_node_maps_list_aligned : ∀ (ns : List Node) (p : Option Node)
    (m : Maps),
    (∀ k, ((m.name_map k).isSome = (m.parent_map k).isSome)
      ∧ ((m.name_map k).isSome = (m.node_lookup k).isSome)) →
    ∀ k, (((build_node_maps_list ns p m).name_map k).isSome
        = ((build_node_maps_list ns p m).parent_map k).isSome)
      ∧ (((build_node_maps_list ns p m).name_map k).isSome
        = ((build_node_maps_list ns p m).node_lookup k).isSome)
  | [], _, m, h => by
    simpa [build_node_maps_list] using h
  | n :: ns, p, m, h => by
    simp only [build_node_maps_list]
    exact build_node_maps_list_aligned ns p (build_node_maps n p m)
      (build_node_maps_aligned n p m h)

end

theorem insert_node_name_mono (n : Node) (p : Option Node) (m : Maps)
    (k : String) (h : (m.name_map k).isSome = true) :
    ((insert_node n p m).name_map k).isSome = true := by
  unfold insert_node
  rcases hid : n.id with _ | i
  · exact h
  · dsimp only
    by_cases hi : i = ""
    · rw [if_neg (show ¬(i ≠ "") from by simp [hi])]
      exact h
    · rw [if_pos (show (i ≠ "") from hi)]
      by_cases hk : k = i <;> simp [upd, hk, h]

mutual

theorem build_node_maps_name_mono : ∀ (n : Node) (p : Option Node) (m : Maps)
    (k : String), (m.name_map k).isSome = true →
    ((build_node_maps n p m).name_map k).isSome = true
  | .mk i nme ty bb pr tr ch, p, m, k, h => by
    simp only [build_node_maps]
    exact build_node_maps_list_name_mono ch (some (.mk i nme ty bb pr tr ch))
      (insert_node (.mk i nme ty bb pr tr ch) p m) k
      (insert_node_name_mono _ p m k h)

theorem build_node_maps_list_name_mono : ∀ (ns : List Node) (p : Option Node)
    (m : Maps) (k : String), (m.name_map k).isSome = true →
    ((build_node_maps_list ns p m).name_map k).isSome = true
  | [], _, _, _, h => h
  | n :: ns, p, m, k, h => by
    simp only [build_node_maps_list]
    exact build_node_maps_list_name_mono ns p (build_node_maps n p m) k
      (build_node_maps_name_mono n p m k h)

end

theorem insert_node_covers (n : Node) (p : Option Node) (m : Maps)
    (i : String) (hid : n.id = some i) (hne : i ≠ "") :
    ((insert_node n p m).name_map i).isSome = true := by
  unfold insert_node
  rw [hid]
  dsimp only
  rw [if_pos hne]
  simp [upd]

mutual

theorem build_node_maps_covers : ∀ (n : Node) (p : Option Node) (m : Maps),
    ∀ x ∈ n.subnodes, ∀ i, x.id = some i → i ≠ "" →
    ((build_node_maps n p m).name_map i).isSome = true
  | .mk a b c d e f ch, p, m, x, hx, i, hid, hne => by
    simp only [Node.subnodes] at hx
    simp only [build_node_maps]
    rcases List.mem_cons.mp hx with h1 | h1
    · subst h1
      exact build_node_maps_list_name_mono ch _ _ i
        (insert_node_covers _ p m i hid hne)
    · exact build_node_maps_list_covers ch (some (.mk a b c d e f ch))
        (insert_node (.mk a b c d e f ch) p m) x h1 i hid hne

theorem build_node_maps_list_covers : ∀ (ns : List Node) (p : Option Node)
    (m : Maps), ∀ x ∈ subnodes_list ns, ∀ i, x.id = some i → i ≠ "" →
    ((build_node_maps_list ns p m).name_map i).isSome = true
  | [], _, _, x, hx, _, _, _ => by
    simp [subnodes_list] at hx
  | n :: ns, p, m, x, hx, i, hid, hne => by
    simp only [subnodes_list] at hx
    simp only [build_node_maps_list]
    rcases List.mem_append.mp hx with h1 | h1
    · exact build_node_maps_list_name_mono ns p (build_node_maps n p m) i
        (build_node_maps_covers n p m x h1 i hid hne)
    · exact build_node_maps_list_covers ns p (build_node_maps n p m) x h1
        i hid hne

end

/-- C8: the three index maps are built together: after indexing a whole tree
from the empty maps, the three maps have exactly the same keys (so every key
of `parent_of` or `node_of` is a key of `name_of`), and every node whose id
is truthy is indexed in all three maps. -/
theorem build_node_maps_consistent (root : Node) :
    (∀ k, (((build_node_maps root none maps0).name_map k).isSome
          = ((build_node_maps root none maps0).parent_map k).isSome)
      ∧ (((build_node_maps root none maps0).name_map k).isSome
          = ((build_node_maps root none maps0).node_lookup k).isSome))
    ∧ ∀ n ∈ root.subnodes, ∀ i, n.id = some i → i ≠ "" →
        ((build_node_maps root none maps0).name_map i).isSome = true
        ∧ ((build_node_maps root none maps0).parent_map i).isSome = true
        ∧ ((build_node_maps root none maps0).node_lookup i).isSome = true := by
  have ha := build_node_maps_aligned root none maps0 (fun _ => ⟨rfl, rfl⟩)
  refine ⟨ha, ?_⟩
  intro n hn i hid hne
  have hc := build_node_maps_covers root none maps0 n hn i hid hne
  exact ⟨hc, by rw [← (ha i).1]; exact hc, by rw [← (ha i).2]; exact hc⟩

/-- Witness for C8: in the fixture tree, the node with id `"n1"` is indexed
in all three maps. -/
theorem build_node_maps_consistent_witness :
    ((build_node_maps count_root none maps0).name_map "n1").isSome = true
    ∧ ((build_node_maps count_root none maps0).parent_map "n1").isSome = true
    ∧ ((build_node_maps count_root none maps0).node_lookup "n1").isSome = true :=
  (build_node_maps_consistent count_root).2 count_node_1
    (by simp [count_root, count_node_1, count_node_2, Node.subnodes,
      subnodes_list]) "n1" rfl (by decide)

end ClickFlow
